import Mathlib

/-!
Verification development for the valuation-app authentication core.

Shallow embedding of the repository's authentication route handlers and
middleware. Machine-level concerns (HMAC bytes, JWT wire format) are
modelled symbolically: a signed token records the secret it was signed
with, and signature verification succeeds exactly when the verifying
secret equals the signing secret (standard symbolic model of an
unforgeable MAC). Time is a natural number of seconds.

JavaScript truthiness on optional strings (null, undefined and the empty
string are falsy) is modelled by jsFalsy; a JS value that may be
undefined is modelled as an Option.
-/

/-- JS truthiness test for an optional string: null/undefined and the
empty string are falsy. -/
def jsFalsy : Option String → Bool
  | none => true
  | some s => s == ""

/-- JS `a || b` on two optional strings (empty string falls through). -/
def jsOrStr (a b : Option String) : Option String :=
  if jsFalsy a then b else a

/-- JS `a || d` with a string default on the right. -/
def jsOrStrD (a : Option String) (d : String) : String :=
  if jsFalsy a then d else a.getD d

/-! ## CredentialSigner: app/lib.mfa.ts (src/unnamed/part_005) -/

/-- A Step-Up Credential as produced by signMfaCookie: an HS256 JWT with
claims email, mfa, iat, exp. The field sigSecret records the secret the
token was signed with (symbolic MAC model); a tampered or forged token is
one whose sigSecret differs from the verifying secret. -/
structure MfaToken where
  email : String
  mfa : Bool
  iat : Nat
  exp : Nat
  sigSecret : String
deriving Repr, DecidableEq

/-- The JWT payload returned by a successful verification. -/
structure MfaPayload where
  email : String
  mfa : Bool
  iat : Nat
  exp : Nat
deriving Repr, DecidableEq

/-- signMfaCookie from app/lib.mfa.ts: signs a JWT with claims
email and mfa=true, issued-at now, expiry one hour (3600 s) later. -/
def signMfaCookie (email : String) (secret : String) (now : Nat) : MfaToken :=
  { email := email, mfa := true, iat := now, exp := now + 3600, sigSecret := secret }

/-- jose jwtVerify: checks the HS256 signature against the supplied
secret, then the exp claim against the current time; returns none where
the library throws (bad signature or expired). -/
def jwtVerify (token : MfaToken) (secret : String) (now : Nat) : Option MfaPayload :=
  if token.sigSecret = secret then
    if now < token.exp then
      some { email := token.email, mfa := token.mfa, iat := token.iat, exp := token.exp }
    else none
  else none

/-- verifyMfaCookie from app/lib.mfa.ts: jwtVerify, then return the
payload only when its mfa claim is literally true, else null. A thrown
jwtVerify error propagates; both failure modes are none here. -/
def verifyMfaCookie (token : MfaToken) (secret : String) (now : Nat) : Option MfaPayload :=
  match jwtVerify token secret now with
  | none => none
  | some payload => if payload.mfa then some payload else none

/-! ## RouteGate: frontend/middleware.ts -/

/-- JS String.startsWith, modelled on the character list of the string. -/
def strStartsWith (s p : String) : Bool :=
  p.data.isPrefixOf s.data

/-- The configured protected path set of frontend/middleware.ts. -/
def PROTECTED_PREFIXES : List String := ["/app", "/result"]

/-- Path matches some configured protected path. -/
def isProtected (pathname : String) : Bool :=
  PROTECTED_PREFIXES.any (fun p => strStartsWith pathname p)

/-- An inbound request as the middleware sees it: its path and the
mfa_token cookie (none when the cookie is absent or unparseable; a
cookie string that is not a well-formed signed JWT is equivalent to a
token whose sigSecret matches no verifying secret). -/
structure MwRequest where
  pathname : String
  mfaCookie : Option MfaToken
deriving Repr

/-- Middleware outcome: forward the request unchanged, or redirect. -/
inductive MwResult where
  | next
  | redirect (url : String)
deriving Repr, DecidableEq

/-- middleware from frontend/middleware.ts: non-protected paths pass
through; on a protected path, absence of the mfa_token cookie or any
verification failure redirects to /request-access, and only a
successful verifyMfaCookie forwards the request. -/
def middleware (req : MwRequest) (secret : String) (now : Nat) : MwResult :=
  if !(isProtected req.pathname) then
    MwResult.next
  else
    match req.mfaCookie with
    | none => MwResult.redirect "/request-access"
    | some token =>
      match verifyMfaCookie token secret now with
      | some _ => MwResult.next
      | none => MwResult.redirect "/request-access"

/-! ## Cookie and route-handler model

Each Next.js route handler is a pure function of its request inputs
(body fields, query parameters, request cookies) and of the outcome of
the one identity-provider call it makes; provider outcomes are passed as
an Option (none models a thrown provider error or rejection). The
provider call the handler issues is recorded so that claims about the
arguments of that call can be stated.
-/

/-- The value written into a cookie: a string, a signed Step-Up
Credential, or JS undefined (a handler writing a missing field). -/
inductive CookieValue where
  | str (s : String)
  | token (t : MfaToken)
  | undef
deriving Repr, DecidableEq

/-- One res.cookies.set call, with the Next.js defaults for omitted
attributes (httpOnly and secure default to false). maxAge is in
seconds. -/
structure SetCookie where
  name : String
  value : CookieValue
  httpOnly : Bool := false
  secure : Bool := false
  sameSite : String := ""
  path : String := "/"
  domain : Option String := none
  maxAge : Int := 0
deriving Repr, DecidableEq

/-- Outcome of a route handler: a JSON body with status and cookie
writes, a redirect with cookie writes, or an exception that escapes the
handler uncaught. -/
inductive RouteResult where
  | json (ok : Bool) (error : Option String) (status : Nat) (cookies : List SetCookie)
  | redirect (url : String) (cookies : List SetCookie)
  | thrown
deriving Repr, DecidableEq

/-- The cookie writes carried by a handler outcome. -/
def cookiesOf : RouteResult → List SetCookie
  | RouteResult.json _ _ _ cs => cs
  | RouteResult.redirect _ cs => cs
  | RouteResult.thrown => []

/-- A successful magicLinks.authenticate provider response; either of
the two session fields may be absent depending on the flow type. -/
structure AuthMagicResponse where
  session_token : Option String
  session_jwt : Option String
deriving Repr, DecidableEq

/-- The arguments of a magicLinks.authenticate call made by a handler. -/
structure MagicAuthCall where
  token : String
  session_duration_minutes : Nat
deriving Repr, DecidableEq

/-- A magic-link consumption handler outcome: the provider call it made
(none when it returned before calling) and its HTTP result. -/
structure GetOutcome where
  call : Option MagicAuthCall
  result : RouteResult
deriving Repr, DecidableEq

/-- The arguments of an otps.sms send call made by a handler. -/
structure SmsSendCall where
  phone_number : String
  session_token : Option String
deriving Repr, DecidableEq

/-- An OTP-send handler outcome: the provider call it made and its HTTP
result. -/
structure SmsOutcome where
  call : Option SmsSendCall
  result : RouteResult
deriving Repr, DecidableEq

/-- A present optional string becomes a string cookie value; an absent
one is written as undefined. -/
def cookieValOf : Option String → CookieValue
  | some s => CookieValue.str s
  | none => CookieValue.undef

/-! ## Magic-link consumption handlers -/

/-- GET of frontend/app/api/auth/callback/route.ts: missing token
redirects to /login with error=missing_token; a provider failure is
caught and redirects with error=auth_failed; on provider success the
session_jwt response field alone is written (unconditionally) into the
stytch_session_jwt cookie and the user is redirected to /intake. The
provider call uses session_duration_minutes 30. -/
def callbackGET (token : Option String) (provider : Option AuthMagicResponse) : GetOutcome :=
  if jsFalsy token then
    { call := none, result := RouteResult.redirect "/login?error=missing_token" [] }
  else
    match provider with
    | none =>
      { call := some { token := token.getD "", session_duration_minutes := 30 },
        result := RouteResult.redirect "/login?error=auth_failed" [] }
    | some resp =>
      { call := some { token := token.getD "", session_duration_minutes := 30 },
        result := RouteResult.redirect "/intake"
          [{ name := "stytch_session_jwt", value := cookieValOf resp.session_jwt,
             httpOnly := true, secure := true, sameSite := "none", path := "/",
             domain := some ".nerdlawyer.ai", maxAge := 1800 }] }

/-- The first GET handler of src/unnamed/part_000: missing token
redirects with err=missing-token; provider failure redirects with
err=auth-failed; on success the session token is session_token falling
back to session_jwt (JS or), and when both are missing or empty the
handler redirects with err=no-session setting no cookie; otherwise the
token is written into the httpOnly stytch_session cookie (secure in
production) and the user is redirected to /mfa. The provider call uses
session_duration_minutes 60. -/
def callbackPart000 (token : Option String) (provider : Option AuthMagicResponse)
    (prod : Bool) : GetOutcome :=
  if jsFalsy token then
    { call := none, result := RouteResult.redirect "/request-access?err=missing-token" [] }
  else
    match provider with
    | none =>
      { call := some { token := token.getD "", session_duration_minutes := 60 },
        result := RouteResult.redirect "/request-access?err=auth-failed" [] }
    | some resp =>
      { call := some { token := token.getD "", session_duration_minutes := 60 },
        result :=
          if jsFalsy (jsOrStr resp.session_token resp.session_jwt) then
            RouteResult.redirect "/request-access?err=no-session" []
          else
            RouteResult.redirect "/mfa"
              [{ name := "stytch_session",
                 value := CookieValue.str ((jsOrStr resp.session_token resp.session_jwt).getD ""),
                 httpOnly := true, secure := prod, sameSite := "lax", path := "/",
                 maxAge := 3600 }] }

/-- The second GET handler of src/unnamed/part_000: like the first but
destructures only session_jwt, writes it unconditionally (secure is the
literal false) and cannot fail with a no-session reason. The provider
call uses session_duration_minutes 60. -/
def callbackPart000b (token : Option String) (provider : Option AuthMagicResponse) : GetOutcome :=
  if jsFalsy token then
    { call := none, result := RouteResult.redirect "/request-access?err=missing-token" [] }
  else
    match provider with
    | none =>
      { call := some { token := token.getD "", session_duration_minutes := 60 },
        result := RouteResult.redirect "/request-access?err=auth-failed" [] }
    | some resp =>
      { call := some { token := token.getD "", session_duration_minutes := 60 },
        result := RouteResult.redirect "/mfa"
          [{ name := "stytch_session", value := cookieValOf resp.session_jwt,
             httpOnly := true, secure := false, sameSite := "lax", path := "/",
             maxAge := 3600 }] }

/-! ## OTP request handlers -/

/-- POST of frontend/app/api/auth/send-sms/route.ts: missing phone is a
400; otherwise otps.sms.loginOrCreate is called with the phone number
only — the request cookies (sessionCookie) are never read, so no
session token is forwarded. The returned phone_id is written into the
15-minute httpOnly stytch_phone_id cookie. A provider throw escapes
uncaught. -/
def sendSmsFrontend (phone : Option String) (sessionCookie : Option String)
    (provider : Option String) (prod : Bool) : SmsOutcome :=
  if jsFalsy phone then
    { call := none, result := RouteResult.json false (some "Missing phone") 400 [] }
  else
    match provider with
    | none =>
      { call := some { phone_number := phone.getD "", session_token := none },
        result := RouteResult.thrown }
    | some phoneId =>
      { call := some { phone_number := phone.getD "", session_token := none },
        result := RouteResult.json true none 200
          [{ name := "stytch_phone_id", value := CookieValue.str phoneId,
             httpOnly := true, secure := prod, sameSite := "lax", path := "/",
             maxAge := 900 }] }

/-- POST of src/unnamed/part_002: like the frontend handler, but reads
the stytch_session cookie and, when it is present and truthy, includes
it as session_token in the otps.sms.send call. -/
def sendSmsPart002 (phone : Option String) (sessionCookie : Option String)
    (provider : Option String) (prod : Bool) : SmsOutcome :=
  if jsFalsy phone then
    { call := none, result := RouteResult.json false (some "Missing phone") 400 [] }
  else
    match provider with
    | none =>
      { call := some { phone_number := phone.getD "",
                       session_token := if jsFalsy sessionCookie then none else sessionCookie },
        result := RouteResult.thrown }
    | some phoneId =>
      { call := some { phone_number := phone.getD "",
                       session_token := if jsFalsy sessionCookie then none else sessionCookie },
        result := RouteResult.json true none 200
          [{ name := "stytch_phone_id", value := CookieValue.str phoneId,
             httpOnly := true, secure := prod, sameSite := "lax", path := "/",
             maxAge := 900 }] }

/-! ## OTP consumption handlers -/

/-- The stytch_phone_id clearing write shared by the OTP consumption
handlers: res.cookies.set of the empty string with path / and maxAge 0
and no other attributes. -/
def clearPhoneIdCookie : SetCookie :=
  { name := "stytch_phone_id", value := CookieValue.str "", path := "/", maxAge := 0 }

/-- POST of frontend/app/api/auth/verify-sms/route.ts: missing code or
missing stytch_phone_id cookie is a 400. The otps.authenticate call is
not wrapped in try/catch, so a provider rejection (providerAccepts
false) escapes the handler as an uncaught exception. On acceptance a
Step-Up Credential for subject "user" is minted with signMfaCookie and
written into the httpOnly mfa_token cookie with maxAge 3600, and the
stytch_phone_id cookie is cleared in the same response. -/
def verifySmsFrontend (code : Option String) (methodId : Option String)
    (providerAccepts : Bool) (secret : String) (now : Nat) (prod : Bool) : RouteResult :=
  if jsFalsy code then
    RouteResult.json false (some "Missing code") 400 []
  else if jsFalsy methodId then
    RouteResult.json false (some "Session expired, resend code.") 400 []
  else if providerAccepts then
    RouteResult.json true none 200
      [{ name := "mfa_token", value := CookieValue.token (signMfaCookie "user" secret now),
         httpOnly := true, secure := prod, sameSite := "lax", path := "/", maxAge := 3600 },
       clearPhoneIdCookie]
  else
    RouteResult.thrown

/-- POST of src/unnamed/part_004: same preconditions, but the provider
call is wrapped in try/catch: any provider failure is caught and mapped
to a 400 with error "Invalid code" and no cookie change. On success the
session_token of the response (provider, none models a rejection) is
written into the httpOnly stytch_session cookie with maxAge 3600 and
the stytch_phone_id cookie is cleared in the same response. -/
def verifySmsPart004 (code : Option String) (methodId : Option String)
    (provider : Option String) (prod : Bool) : RouteResult :=
  if jsFalsy code then
    RouteResult.json false (some "Missing code") 400 []
  else if jsFalsy methodId then
    RouteResult.json false (some "Session expired, resend code.") 400 []
  else
    match provider with
    | none => RouteResult.json false (some "Invalid code") 400 []
    | some sessionToken =>
      RouteResult.json true none 200
        [{ name := "stytch_session", value := CookieValue.str sessionToken,
           httpOnly := true, secure := prod, sameSite := "lax", path := "/", maxAge := 3600 },
         clearPhoneIdCookie]

/-- POST of src/frontend_jovo/app/api/auth/verify-sms/route.ts: also
requires the stytch_session cookie, forwards it to otps.authenticate,
catches provider failures mapping them to a 400 whose message is the
provider error_message falling back to "Invalid code", and requires a
session token in the response (session_token or session_jwt), failing
with a 500 otherwise. -/
def verifySmsJovo (code : Option String) (methodId : Option String)
    (sessionCookie : Option String) (provider : Option AuthMagicResponse)
    (providerErrMsg : Option String) (prod : Bool) : RouteResult :=
  if jsFalsy code then
    RouteResult.json false (some "Missing code") 400 []
  else if jsFalsy methodId then
    RouteResult.json false (some "Session expired, resend code.") 400 []
  else if jsFalsy sessionCookie then
    RouteResult.json false (some "No active session.") 400 []
  else
    match provider with
    | none => RouteResult.json false (some (jsOrStrD providerErrMsg "Invalid code")) 400 []
    | some resp =>
      if jsFalsy (jsOrStr resp.session_token resp.session_jwt) then
        RouteResult.json false (some "Session error") 500 []
      else
        RouteResult.json true none 200
          [{ name := "stytch_session",
             value := CookieValue.str ((jsOrStr resp.session_token resp.session_jwt).getD ""),
             httpOnly := true, secure := prod, sameSite := "lax", path := "/",
             maxAge := 3600 },
           clearPhoneIdCookie]

/-! ## Cookie security-attribute policy (claim C3) -/

/-- The cookie names that carry a credential or ticket: the Primary
Session Token (two spellings), the Phone Challenge Ticket and the
Step-Up Credential. -/
def credCookieNames : List String :=
  ["stytch_session_jwt", "stytch_session", "stytch_phone_id", "mfa_token"]

/-- Whether a written cookie value actually carries data: the empty
string (a clearing write) and undefined do not. -/
def carriesValue : CookieValue → Bool
  | CookieValue.str s => !(s == "")
  | CookieValue.token _ => true
  | CookieValue.undef => false

/-- A cookie write respects the policy when, if it is a credential or
ticket cookie carrying a value, it sets httpOnly. -/
def cookieHttpOnlyOk (c : SetCookie) : Bool :=
  !(credCookieNames.contains c.name) || !(carriesValue c.value) || c.httpOnly

/-- All cookie writes of a handler outcome respect the policy. -/
def resultCookiesHttpOnlyOk (r : RouteResult) : Bool :=
  (cookiesOf r).all cookieHttpOnlyOk

/-! ## Phone normalization (claim C9) -/

/-- The first strip of toE164: remove every character that is neither a
digit nor a plus sign (the regex keeps every plus, not only a leading
one). -/
def stripNonDigitPlus (input : String) : String :=
  String.mk (input.data.filter (fun c => c.isDigit || c == '+'))

/-- The second strip of toE164: keep digits only. -/
def stripNonDigit (s : String) : String :=
  String.mk (s.data.filter (fun c => c.isDigit))

/-- toE164 from the MFA page (src/unnamed/part_006): strip to digits
and plus signs; a result starting with a plus is returned unchanged
when at least 8 characters long and rejected otherwise; else the digits
alone are taken, a 10-digit string gets a +1 prefixed, an 11-digit
string starting with 1 gets a + prefixed, and anything else is null. -/
def toE164 (input : String) : Option String :=
  let s := stripNonDigitPlus input
  if strStartsWith s "+" then
    if 8 ≤ s.length then some s else none
  else
    let digits := stripNonDigit s
    if digits.length = 10 then some ("+1" ++ digits)
    else if digits.length = 11 ∧ strStartsWith digits "1" = true then some ("+" ++ digits)
    else none

/-- The normalization rule as the specification sentence states it,
for comparison with toE164: strip all characters other than digits and
a leading plus; a 10-digit result gets a +1 prefixed; an 11-digit
result starting with 1 gets a + prefixed; any other input is null. The
digit-count rules are read on the digits of the input (the charitable
reading; under the stricter reading, where a kept leading plus makes
the result fail both digit-count tests, even more inputs differ). -/
def toE164_spec (input : String) : Option String :=
  let digits := stripNonDigit input
  if digits.length = 10 then some ("+1" ++ digits)
  else if digits.length = 11 ∧ strStartsWith digits "1" = true then some ("+" ++ digits)
  else none

/-! ## Shared characterization lemma -/

/-- verifyMfaCookie succeeds exactly when the signature matches, the mfa
claim is true and the current time is before the expiry. -/
theorem verifyMfaCookie_isSome_iff (token : MfaToken) (secret : String) (now : Nat) :
    (verifyMfaCookie token secret now).isSome = true ↔
      token.sigSecret = secret ∧ token.mfa = true ∧ now < token.exp := by
  unfold verifyMfaCookie jwtVerify
  by_cases hs : token.sigSecret = secret
  · by_cases he : now < token.exp
    · cases hm : token.mfa <;> simp [hs, he, hm]
    · simp [hs, he]
  · simp [hs]

/-! ## Claim theorems: C1, C2, C10 -/

/-- Claim C2: verifyMfaCookie accepts a credential iff its signature
verifies against the current secret, its mfa claim is true and the
current time is before its expiry; and a credential signed with secret
S1 is always rejected when verified against a different secret S2. -/
theorem credentialSigner_verify_iff :
    (∀ (token : MfaToken) (secret : String) (now : Nat),
      (verifyMfaCookie token secret now).isSome = true ↔
        token.sigSecret = secret ∧ token.mfa = true ∧ now < token.exp)
    ∧ (∀ (subject s1 s2 : String) (issuedAt now : Nat), s1 ≠ s2 →
        verifyMfaCookie (signMfaCookie subject s1 issuedAt) s2 now = none) := by
  constructor
  · exact verifyMfaCookie_isSome_iff
  · intro subject s1 s2 issuedAt now hne
    cases hv : verifyMfaCookie (signMfaCookie subject s1 issuedAt) s2 now with
    | none => rfl
    | some p =>
      have hsome : (verifyMfaCookie (signMfaCookie subject s1 issuedAt) s2 now).isSome = true := by
        rw [hv]; rfl
      have := (verifyMfaCookie_isSome_iff (signMfaCookie subject s1 issuedAt) s2 now).mp hsome
      exact absurd this.1 hne

/-- Witness for C2 at concrete inputs: a credential signed with secret
s1 is rejected against secret s2. -/
theorem credentialSigner_verify_iff_witness :
    verifyMfaCookie (signMfaCookie "a@b.com" "s1" 0) "s2" 10 = none :=
  credentialSigner_verify_iff.2 "a@b.com" "s1" "s2" 0 10 (by decide)

/-- Claim C1: on a protected path, the middleware forwards the request
(NextResponse.next) exactly when the mfa_token cookie is present, its
signature verifies against the configured secret, its mfa claim is true
and it is unexpired; in every other case the outcome is a redirect to
the entry point /request-access, never a forward. -/
theorem routeGate_protected_gate (req : MwRequest) (secret : String) (now : Nat)
    (h : isProtected req.pathname = true) :
    (middleware req secret now = MwResult.next ↔
      ∃ token, req.mfaCookie = some token ∧
        token.sigSecret = secret ∧ token.mfa = true ∧ now < token.exp)
    ∧ (middleware req secret now = MwResult.next ∨
       middleware req secret now = MwResult.redirect "/request-access") := by
  unfold middleware
  rw [h]
  simp only [Bool.not_true, Bool.false_eq_true, if_false]
  split
  next heq =>
    refine ⟨?_, Or.inr rfl⟩
    simp [heq]
  next token heq =>
    split
    next payload hv =>
      refine ⟨?_, Or.inl rfl⟩
      constructor
      · intro _
        refine ⟨token, heq, ?_⟩
        have hsome : (verifyMfaCookie token secret now).isSome = true := by rw [hv]; rfl
        exact (verifyMfaCookie_isSome_iff token secret now).mp hsome
      · intro _; rfl
    next hv =>
      refine ⟨?_, Or.inr rfl⟩
      constructor
      · intro hfalse; exact absurd hfalse (by simp)
      · rintro ⟨token2, htoken2, hcond⟩
        have he : token = token2 := by
          have h12 := heq.symm.trans htoken2
          injection h12
        subst he
        have hsome := (verifyMfaCookie_isSome_iff token secret now).mpr hcond
        rw [hv] at hsome
        simp at hsome

/-- Witness for C1 at a concrete protected request with no cookie: the
middleware redirects to the entry point. -/
theorem routeGate_protected_gate_witness :
    middleware { pathname := "/app/intake", mfaCookie := none } "k" 0
      = MwResult.redirect "/request-access" := by
  obtain ⟨hiff, hor⟩ :=
    routeGate_protected_gate { pathname := "/app/intake", mfaCookie := none } "k" 0 (by decide)
  cases hor with
  | inl hn =>
    obtain ⟨token, htoken, -⟩ := hiff.mp hn
    simp at htoken
  | inr hr => exact hr

/-- Claim C10: verifying a credential freshly produced by signMfaCookie
with the same secret, at any time before its one-hour expiry, succeeds
and yields a payload with mfa true and email equal to the subject. -/
theorem signVerify_roundTrip (subject secret : String) (issuedAt now : Nat)
    (h : now < issuedAt + 3600) :
    ∃ payload,
      verifyMfaCookie (signMfaCookie subject secret issuedAt) secret now = some payload
      ∧ payload.mfa = true ∧ payload.email = subject := by
  refine ⟨{ email := subject, mfa := true, iat := issuedAt, exp := issuedAt + 3600 }, ?_, rfl, rfl⟩
  unfold verifyMfaCookie jwtVerify signMfaCookie
  simp [h]

/-- Witness for C10 at concrete inputs. -/
theorem signVerify_roundTrip_witness :
    ∃ payload,
      verifyMfaCookie (signMfaCookie "a@b.com" "k" 0) "k" 5 = some payload
      ∧ payload.mfa = true ∧ payload.email = "a@b.com" :=
  signVerify_roundTrip "a@b.com" "k" 0 5 (by decide)

/-! ## Claim C3: HTTP-only on every credential and ticket cookie -/

/-- Claim C3: in every modelled route handler, every cookie write that
carries a credential or ticket value (Primary Session Token, Phone
Challenge Ticket, Step-Up Credential) sets the HTTP-only attribute. -/
theorem credential_cookies_httpOnly :
    (∀ token provider,
      resultCookiesHttpOnlyOk (callbackGET token provider).result = true)
    ∧ (∀ token provider prod,
      resultCookiesHttpOnlyOk (callbackPart000 token provider prod).result = true)
    ∧ (∀ token provider,
      resultCookiesHttpOnlyOk (callbackPart000b token provider).result = true)
    ∧ (∀ phone sessionCookie provider prod,
      resultCookiesHttpOnlyOk (sendSmsFrontend phone sessionCookie provider prod).result = true)
    ∧ (∀ phone sessionCookie provider prod,
      resultCookiesHttpOnlyOk (sendSmsPart002 phone sessionCookie provider prod).result = true)
    ∧ (∀ code methodId accepts secret now prod,
      resultCookiesHttpOnlyOk (verifySmsFrontend code methodId accepts secret now prod) = true)
    ∧ (∀ code methodId provider prod,
      resultCookiesHttpOnlyOk (verifySmsPart004 code methodId provider prod) = true)
    ∧ (∀ code methodId sessionCookie provider errMsg prod,
      resultCookiesHttpOnlyOk
        (verifySmsJovo code methodId sessionCookie provider errMsg prod) = true) := by
  refine ⟨?_, ?_, ?_, ?_, ?_, ?_, ?_, ?_⟩
  · intro token provider
    by_cases h1 : jsFalsy token = true <;>
      cases provider <;>
        simp [callbackGET, h1, resultCookiesHttpOnlyOk, cookiesOf, cookieHttpOnlyOk,
              carriesValue, credCookieNames]
  · intro token provider prod
    by_cases h1 : jsFalsy token = true
    · simp [callbackPart000, h1, resultCookiesHttpOnlyOk, cookiesOf, cookieHttpOnlyOk]
    · cases provider with
      | none =>
        simp [callbackPart000, h1, resultCookiesHttpOnlyOk, cookiesOf, cookieHttpOnlyOk]
      | some resp =>
        by_cases h2 : jsFalsy (jsOrStr resp.session_token resp.session_jwt) = true <;>
          simp [callbackPart000, h1, h2, resultCookiesHttpOnlyOk, cookiesOf, cookieHttpOnlyOk,
                carriesValue, credCookieNames]
  · intro token provider
    by_cases h1 : jsFalsy token = true <;>
      cases provider <;>
        simp [callbackPart000b, h1, resultCookiesHttpOnlyOk, cookiesOf, cookieHttpOnlyOk,
              carriesValue, credCookieNames]
  · intro phone sessionCookie provider prod
    by_cases h1 : jsFalsy phone = true <;>
      cases provider <;>
        simp [sendSmsFrontend, h1, resultCookiesHttpOnlyOk, cookiesOf, cookieHttpOnlyOk,
              carriesValue, credCookieNames]
  · intro phone sessionCookie provider prod
    by_cases h1 : jsFalsy phone = true <;>
      cases provider <;>
        simp [sendSmsPart002, h1, resultCookiesHttpOnlyOk, cookiesOf, cookieHttpOnlyOk,
              carriesValue, credCookieNames]
  · intro code methodId accepts secret now prod
    by_cases h1 : jsFalsy code = true <;>
      by_cases h2 : jsFalsy methodId = true <;>
        cases accepts <;>
          simp [verifySmsFrontend, h1, h2, resultCookiesHttpOnlyOk, cookiesOf, cookieHttpOnlyOk,
                clearPhoneIdCookie, carriesValue, credCookieNames]
  · intro code methodId provider prod
    by_cases h1 : jsFalsy code = true <;>
      by_cases h2 : jsFalsy methodId = true <;>
        cases provider <;>
          simp [verifySmsPart004, h1, h2, resultCookiesHttpOnlyOk, cookiesOf, cookieHttpOnlyOk,
                clearPhoneIdCookie, carriesValue, credCookieNames]
  · intro code methodId sessionCookie provider errMsg prod
    by_cases h1 : jsFalsy code = true
    · simp [verifySmsJovo, h1, resultCookiesHttpOnlyOk, cookiesOf, cookieHttpOnlyOk]
    · by_cases h2 : jsFalsy methodId = true
      · simp [verifySmsJovo, h1, h2, resultCookiesHttpOnlyOk, cookiesOf, cookieHttpOnlyOk]
      · by_cases h3 : jsFalsy sessionCookie = true
        · simp [verifySmsJovo, h1, h2, h3, resultCookiesHttpOnlyOk, cookiesOf, cookieHttpOnlyOk]
        · cases provider with
          | none =>
            simp [verifySmsJovo, h1, h2, h3, resultCookiesHttpOnlyOk, cookiesOf, cookieHttpOnlyOk]
          | some resp =>
            by_cases h4 : jsFalsy (jsOrStr resp.session_token resp.session_jwt) = true <;>
              simp [verifySmsJovo, h1, h2, h3, h4, resultCookiesHttpOnlyOk, cookiesOf,
                    cookieHttpOnlyOk, clearPhoneIdCookie, carriesValue, credCookieNames]

/-! ## Claim C4: successful OTP consumption -/

/-- Claim C4: when the code and the Phone Challenge Ticket cookie are
present and the provider accepts the code, the frontend verify-sms
handler writes the minted Step-Up Credential (one-hour token expiry)
into the httpOnly mfa_token cookie with maxAge 3600 and clears the
stytch_phone_id cookie (maxAge 0) in the same response; the part_004
variant likewise writes its httpOnly one-hour session cookie and clears
the ticket. -/
theorem consumeOtp_success_mints_and_clears (code methodId : Option String)
    (hc : jsFalsy code = false) (hm : jsFalsy methodId = false)
    (secret sessionToken : String) (now : Nat) (prod : Bool) :
    verifySmsFrontend code methodId true secret now prod
      = RouteResult.json true none 200
          [{ name := "mfa_token", value := CookieValue.token (signMfaCookie "user" secret now),
             httpOnly := true, secure := prod, sameSite := "lax", path := "/", maxAge := 3600 },
           clearPhoneIdCookie]
    ∧ (signMfaCookie "user" secret now).exp = now + 3600
    ∧ clearPhoneIdCookie.maxAge ≤ 0
    ∧ verifySmsPart004 code methodId (some sessionToken) prod
      = RouteResult.json true none 200
          [{ name := "stytch_session", value := CookieValue.str sessionToken,
             httpOnly := true, secure := prod, sameSite := "lax", path := "/", maxAge := 3600 },
           clearPhoneIdCookie] := by
  refine ⟨?_, rfl, by decide, ?_⟩
  · simp [verifySmsFrontend, hc, hm]
  · simp [verifySmsPart004, hc, hm]

/-- Witness for C4 at concrete inputs. -/
theorem consumeOtp_success_witness :
    verifySmsFrontend (some "123456") (some "pid") true "k" 7 false
      = RouteResult.json true none 200
          [{ name := "mfa_token", value := CookieValue.token (signMfaCookie "user" "k" 7),
             httpOnly := true, secure := false, sameSite := "lax", path := "/", maxAge := 3600 },
           clearPhoneIdCookie] :=
  (consumeOtp_success_mints_and_clears (some "123456") (some "pid") (by decide) (by decide)
    "k" "sess" 7 false).1

/-! ## Claim C5: rejected OTP consumption -/

/-- Claim C5 is violated by frontend/app/api/auth/verify-sms/route.ts:
its otps.authenticate call is not wrapped in try/catch, so with the
code and ticket cookie present a provider rejection escapes the handler
as an uncaught exception (a 500-class raw failure) instead of the
documented 400 InvalidCode response; part_004 and the jovo variant do
catch it. This theorem evaluates the frontend handler at the failing
input. -/
theorem consumeOtp_reject_throws (secret : String) (now : Nat) (prod : Bool) :
    verifySmsFrontend (some "000000") (some "phone-id-1") false secret now prod
      = RouteResult.thrown := by
  rfl

/-! ## Claim C6: magic-link session lifetime -/

/-- Counterexample to claim C6: the frontend callback handler calls
magicLinks.authenticate with session_duration_minutes 30, not 60. -/
theorem consumeMagicLink_duration_cx :
    (callbackGET (some "tok") (some { session_token := some "st", session_jwt := some "jwt" })).call
      = some { token := "tok", session_duration_minutes := 30 }
    ∧ (callbackGET (some "tok") (some { session_token := some "st", session_jwt := some "jwt" })).call
      ≠ some { token := "tok", session_duration_minutes := 60 } := by
  exact ⟨rfl, by decide⟩

/-- Claim C6 as amended: every magic-link consumption handler calls the
provider with a fixed, handler-specific session lifetime — 60 minutes
in both part_000 handlers, 30 minutes in the frontend callback handler. -/
theorem consumeMagicLink_fixed_duration (token : String) (ht : jsFalsy (some token) = false)
    (provider : Option AuthMagicResponse) (prod : Bool) :
    (callbackGET (some token) provider).call
      = some { token := token, session_duration_minutes := 30 }
    ∧ (callbackPart000 (some token) provider prod).call
      = some { token := token, session_duration_minutes := 60 }
    ∧ (callbackPart000b (some token) provider).call
      = some { token := token, session_duration_minutes := 60 } := by
  refine ⟨?_, ?_, ?_⟩ <;>
    cases provider <;>
      simp [callbackGET, callbackPart000, callbackPart000b, ht]

/-- Witness for the amended C6 at concrete inputs. -/
theorem consumeMagicLink_fixed_duration_witness :
    (callbackPart000 (some "tok") none false).call
      = some { token := "tok", session_duration_minutes := 60 } :=
  (consumeMagicLink_fixed_duration "tok" (by decide) none false).2.1

/-! ## Claim C7: two-field session extraction and NoSessionIssued -/

/-- Counterexample to claim C7: on a provider success carrying neither
session field, the frontend callback handler does not fail with a
no-session redirect — it writes the stytch_session_jwt cookie (with the
undefined session_jwt value) and redirects to /intake. -/
theorem noSession_check_cx :
    (callbackGET (some "tok") (some { session_token := none, session_jwt := none })).result
      = RouteResult.redirect "/intake"
          [{ name := "stytch_session_jwt", value := CookieValue.undef,
             httpOnly := true, secure := true, sameSite := "none", path := "/",
             domain := some ".nerdlawyer.ai", maxAge := 1800 }] := by
  rfl

/-- Claim C7 as amended: the part_000 consume handler checks the two
response fields session_token and session_jwt (in that order, with JS
truthiness) and, when both are missing or empty, redirects with reason
err=no-session writing no cookie; the frontend callback handler reads
only session_jwt and unconditionally writes the session cookie and
redirects to /intake on any provider success. -/
theorem noSession_twoField_handling (token : String) (ht : jsFalsy (some token) = false)
    (resp : AuthMagicResponse) (prod : Bool) :
    (jsFalsy resp.session_token = true → jsFalsy resp.session_jwt = true →
      (callbackPart000 (some token) (some resp) prod).result
        = RouteResult.redirect "/request-access?err=no-session" [])
    ∧ (jsFalsy resp.session_token = false →
      (callbackPart000 (some token) (some resp) prod).result
        = RouteResult.redirect "/mfa"
            [{ name := "stytch_session", value := CookieValue.str (resp.session_token.getD ""),
               httpOnly := true, secure := prod, sameSite := "lax", path := "/",
               maxAge := 3600 }])
    ∧ (jsFalsy resp.session_token = true → jsFalsy resp.session_jwt = false →
      (callbackPart000 (some token) (some resp) prod).result
        = RouteResult.redirect "/mfa"
            [{ name := "stytch_session", value := CookieValue.str (resp.session_jwt.getD ""),
               httpOnly := true, secure := prod, sameSite := "lax", path := "/",
               maxAge := 3600 }])
    ∧ (callbackGET (some token) (some resp)).result
        = RouteResult.redirect "/intake"
            [{ name := "stytch_session_jwt", value := cookieValOf resp.session_jwt,
               httpOnly := true, secure := true, sameSite := "none", path := "/",
               domain := some ".nerdlawyer.ai", maxAge := 1800 }] := by
  refine ⟨?_, ?_, ?_, ?_⟩
  · intro h1 h2
    simp [callbackPart000, ht, jsOrStr, h1, h2]
  · intro h1
    simp [callbackPart000, ht, jsOrStr, h1]
  · intro h1 h2
    simp [callbackPart000, ht, jsOrStr, h1, h2]
  · simp [callbackGET, ht]

/-- Witness for the amended C7 at concrete inputs: both fields absent
gives the no-session redirect in the part_000 handler. -/
theorem noSession_twoField_witness :
    (callbackPart000 (some "tok") (some { session_token := none, session_jwt := none }) false).result
      = RouteResult.redirect "/request-access?err=no-session" [] :=
  (noSession_twoField_handling "tok" (by decide)
    { session_token := none, session_jwt := none } false).1 (by decide) (by decide)

/-! ## Claim C8: challenge binding to the primary session -/

/-- Counterexample to claim C8: with a Primary Session Token cookie
present, the frontend send-sms handler still calls the provider with no
session_token — its value is never forwarded. -/
theorem otpBinding_cx :
    (sendSmsFrontend (some "+14155551234") (some "sess-abc") (some "phone-id-1") false).call
      = some { phone_number := "+14155551234", session_token := none } := by
  rfl

/-- Claim C8 as amended: the part_002 handler forwards the Primary
Session Token to the OTP-send call whenever the cookie is present and
truthy and proceeds without it otherwise, while the frontend send-sms
handler never forwards it; in both handlers the returned Phone
Challenge Ticket is written into a 15-minute (maxAge 900) HTTP-only
cookie. -/
theorem otpBinding_amended (phone : String) (hp : jsFalsy (some phone) = false)
    (sessionCookie : Option String) (phoneId : String) (prod : Bool) :
    (sendSmsPart002 (some phone) sessionCookie (some phoneId) prod).call
      = some { phone_number := phone,
               session_token := if jsFalsy sessionCookie then none else sessionCookie }
    ∧ (sendSmsFrontend (some phone) sessionCookie (some phoneId) prod).call
      = some { phone_number := phone, session_token := none }
    ∧ (sendSmsPart002 (some phone) sessionCookie (some phoneId) prod).result
      = RouteResult.json true none 200
          [{ name := "stytch_phone_id", value := CookieValue.str phoneId,
             httpOnly := true, secure := prod, sameSite := "lax", path := "/", maxAge := 900 }]
    ∧ (sendSmsFrontend (some phone) sessionCookie (some phoneId) prod).result
      = RouteResult.json true none 200
          [{ name := "stytch_phone_id", value := CookieValue.str phoneId,
             httpOnly := true, secure := prod, sameSite := "lax", path := "/", maxAge := 900 }] := by
  refine ⟨?_, ?_, ?_, ?_⟩ <;> simp [sendSmsPart002, sendSmsFrontend, hp]

/-- Witness for the amended C8 at concrete inputs: part_002 forwards
the present session cookie. -/
theorem otpBinding_amended_witness :
    (sendSmsPart002 (some "+14155551234") (some "sess-abc") (some "phone-id-1") false).call
      = some { phone_number := "+14155551234", session_token := some "sess-abc" } := by
  have h := (otpBinding_amended "+14155551234" (by decide) (some "sess-abc") "phone-id-1" false).1
  simpa [jsFalsy] using h

/-! ## Claim C9: phone normalization -/

/-- Filtering to digits after filtering to digits and plus signs is
filtering to digits. -/
theorem filter_isDigit_filter_isDigitPlus (l : List Char) :
    (l.filter (fun c => c.isDigit || c == '+')).filter (fun c => c.isDigit)
      = l.filter (fun c => c.isDigit) := by
  induction l with
  | nil => rfl
  | cons c cs ih =>
    by_cases hd : c.isDigit
    · simp [List.filter_cons, hd, ih]
    · by_cases hp : (c == '+') = true
      · simp [List.filter_cons, hd, hp, ih]
      · simp [List.filter_cons, hd, hp, ih]

/-- The two strips of toE164 compose: the digits of the first strip are
the digits of the input. -/
theorem stripNonDigit_stripNonDigitPlus (input : String) :
    stripNonDigit (stripNonDigitPlus input) = stripNonDigit input := by
  unfold stripNonDigit stripNonDigitPlus
  exact congrArg String.mk (filter_isDigit_filter_isDigitPlus input.data)

/-- Counterexample to claim C9: the stripped form of "+441234567890"
starts with a plus, so toE164 returns it unchanged through the
pass-through branch the claim does not mention, while the rule as the
claim states it (12 digits: neither 10 nor 11) yields null. -/
theorem toE164_spec_cx :
    toE164 "+441234567890" = some "+441234567890"
    ∧ toE164_spec "+441234567890" = none := by
  exact ⟨rfl, rfl⟩

/-- Claim C9 as amended: toE164 keeps every digit and plus sign; when
the stripped string begins with a plus it is returned unchanged exactly
when it is at least 8 characters long (and null otherwise), bypassing
the digit-count rules; on every other input the claimed rule holds
as stated (10 digits get +1, 11 digits starting with 1 get +, anything
else is null). -/
theorem toE164_amended_thm (input : String) :
    (strStartsWith (stripNonDigitPlus input) "+" = true →
      toE164 input
        = (if 8 ≤ (stripNonDigitPlus input).length
           then some (stripNonDigitPlus input) else none))
    ∧ (strStartsWith (stripNonDigitPlus input) "+" = false →
      toE164 input = toE164_spec input) := by
  constructor
  · intro h
    simp [toE164, h]
  · intro h
    simp [toE164, toE164_spec, h, stripNonDigit_stripNonDigitPlus]

/-- Witness for the amended C9: a formatted US number goes through the
10-digit rule, agreeing with the claimed rule. -/
theorem toE164_amended_witness :
    toE164 "(412) 555-1234" = some "+14125551234" := by
  have h := (toE164_amended_thm "(412) 555-1234").2 (by decide)
  rw [h]
  decide
